import Mathlib

/-!
Verification of the AFSIM MCP server's core model: scenario data model,
validation, structured persistence, entity management, and the simulation
run lifecycle.  Shallow embedding of `afsim_mcp/models.py`,
`afsim_mcp/scenario_manager.py`, `afsim_mcp/entity_manager.py` and
`afsim_mcp/simulation_controller.py`.  Python floats appear only through
comparison and equality here, so they are modelled by `Rat`; parameter
bags (`dict[str, Any]`, insertion ordered) are modelled as ordered
association lists whose values are carried by their rendered string form.
-/

namespace AfsimMcp

/-- Ordered parameter bag: Python `dict[str, Any]` with insertion order. -/
abbrev Params := List (String × String)

/-- Geographic position (`models.Position`). -/
structure Position where
  latitude : Rat := 0
  longitude : Rat := 0
  altitude_m : Rat := 0
deriving DecidableEq

/-- `Position.to_afsim`: the AFSIM-formatted position string. -/
def Position.to_afsim (p : Position) : String :=
  toString p.latitude ++ "deg " ++ toString p.longitude ++ "deg "
    ++ toString p.altitude_m ++ "m"

/-- A component attached to a platform (`models.Component`). -/
structure Component where
  name : String
  component_type : String
  parameters : Params := []
deriving DecidableEq

/-- Python `s.split("_", 1)`, maxsplit 1, on the character list: everything
after the first underscore, or `none` when no underscore occurs. -/
def splitOnceRest : List Char → Option (List Char)
  | [] => none
  | c :: rest => if c = '_' then some rest else splitOnceRest rest

/-- Python `comp_type.split("_", 1)[-1]`: the last piece of a maxsplit-1
underscore split, i.e. the remainder after the first underscore when one
exists, and the whole string otherwise. -/
def pySplitUnderscoreOnceLast (s : String) : String :=
  match AfsimMcp.splitOnceRest s.data with
  | some rest => String.mk rest
  | none => s

/-- The list of lines `Component.to_afsim_block` builds before joining. -/
def Component.to_afsim_lines (c : Component) : List String :=
  ("  " ++ c.component_type ++ " " ++ c.name)
    :: (c.parameters.map (fun kv => "    " ++ kv.1 ++ " " ++ kv.2)
        ++ ["  end_" ++ pySplitUnderscoreOnceLast c.component_type])

/-- `Component.to_afsim_block`: the joined block text. -/
def Component.to_afsim_block (c : Component) : String :=
  String.intercalate "\n" c.to_afsim_lines

/-- An AFSIM platform (`models.Platform`). -/
structure Platform where
  name : String
  platform_type : String := "wsf_platform"
  position : Position := {}
  components : List Component := []
  parameters : Params := []
deriving DecidableEq

/-- `Platform.to_afsim_block` as its list of lines (component blocks appear
joined, as the source appends each component's block as one element). -/
def Platform.to_afsim_lines (p : Platform) : List String :=
  ("platform " ++ p.name)
    :: ("  platform_type " ++ p.platform_type)
    :: ("  position " ++ p.position.to_afsim)
    :: (p.parameters.map (fun kv => "  " ++ kv.1 ++ " " ++ kv.2)
        ++ p.components.map Component.to_afsim_block
        ++ ["end_platform"])

/-- `Platform.to_afsim_block`: the joined block text. -/
def Platform.to_afsim_block (p : Platform) : String :=
  String.intercalate "\n" p.to_afsim_lines

/-- An AFSIM scenario (`models.Scenario`).  The Python default for
`scenario_id` is a freshly drawn uuid4; identifier generation is kept
outside the model, so construction sites always pass the identifier. -/
structure Scenario where
  name : String
  scenario_id : String
  description : String := ""
  duration_s : Rat := 3600
  time_step_s : Rat := 1
  platforms : List Platform := []
  parameters : Params := []
  file_path : Option String := none
deriving DecidableEq

/- ------------------------------------------------------------------
   Claim C9: the component block's closing token.
   ------------------------------------------------------------------ -/

/-- The claim's description of the closing-token derivation: the kind
string with everything up to and including the first underscore removed,
and the entire kind string when it holds no underscore. -/
def dropThroughFirstUnderscore (s : String) : String :=
  if '_' ∈ s.data then String.mk ((s.data.dropWhile (fun c => c ≠ '_')).tail)
  else s

theorem string_data_append (a b : String) : (a ++ b).data = a.data ++ b.data := by
  cases a; cases b; rfl

theorem splitOnceRest_eq_none {l : List Char} (h : ¬ '_' ∈ l) :
    AfsimMcp.splitOnceRest l = none := by
  induction l with
  | nil => rfl
  | cons c rest ih =>
    simp only [List.mem_cons, not_or] at h
    simp only [splitOnceRest]
    rw [if_neg (fun hc => h.1 hc.symm)]
    exact ih h.2

theorem splitOnceRest_mem {l : List Char} (h : '_' ∈ l) :
    AfsimMcp.splitOnceRest l = some ((l.dropWhile (fun c => c ≠ '_')).tail) := by
  induction l with
  | nil => cases h
  | cons c rest ih =>
    by_cases hc : c = '_'
    · subst hc
      simp [splitOnceRest, List.dropWhile]
    · have hmem : '_' ∈ rest := by
        rcases List.mem_cons.mp h with h1 | h1
        · exact absurd h1.symm hc
        · exact h1
      simp only [splitOnceRest]
      rw [if_neg hc, ih hmem]
      simp [List.dropWhile_cons, hc]

/-- The source derivation agrees with the claim's description on every kind
string. -/
theorem pySplit_eq_dropThrough (s : String) :
    pySplitUnderscoreOnceLast s = dropThroughFirstUnderscore s := by
  by_cases h : '_' ∈ s.data
  · rw [pySplitUnderscoreOnceLast, splitOnceRest_mem h,
       dropThroughFirstUnderscore, if_pos h]
  · rw [pySplitUnderscoreOnceLast, splitOnceRest_eq_none h,
       dropThroughFirstUnderscore, if_neg h]

theorem dropWhile_append_underscore (pre suf : List Char) (hp : ¬ '_' ∈ pre) :
    (pre ++ '_' :: suf).dropWhile (fun c => c ≠ '_') = '_' :: suf := by
  induction pre with
  | nil => simp [List.dropWhile]
  | cons c rest ih =>
    simp only [List.mem_cons, not_or] at hp
    have hcne : c ≠ '_' := fun hc => hp.1 hc.symm
    rw [List.cons_append, List.dropWhile_cons, if_pos (by simp [hcne])]
    exact ih hp.2

theorem dropThrough_append {pre suf : String} (hp : ¬ '_' ∈ pre.data) :
    dropThroughFirstUnderscore (pre ++ "_" ++ suf) = suf := by
  have hdata : (pre ++ "_" ++ suf).data = pre.data ++ ('_' :: suf.data) := by
    rw [string_data_append, string_data_append, List.append_assoc]
    rfl
  have hmem : '_' ∈ (pre ++ "_" ++ suf).data := by
    rw [hdata]; exact List.mem_append_right _ (List.mem_cons_self _ _)
  rw [dropThroughFirstUnderscore, if_pos hmem, hdata,
     dropWhile_append_underscore _ _ hp, List.tail_cons]

/-- C9: for every Component, the closing line of the rendered block is
`"  end_"` followed by the kind string with everything up to and including
the first underscore removed; when the kind string holds a first underscore
(kind = pre ++ "_" ++ suf with no underscore in pre) the closing line is
`"  end_" ++ suf`, and when the kind string holds no underscore at all the
closing line is `"  end_"` followed by the entire kind string. -/
theorem C9_component_closing_token (c : Component) :
    (Component.to_afsim_lines c).getLast?
      = some ("  end_" ++ dropThroughFirstUnderscore c.component_type)
    ∧ (∀ pre suf : String, c.component_type = pre ++ "_" ++ suf → ¬ '_' ∈ pre.data →
        (Component.to_afsim_lines c).getLast? = some ("  end_" ++ suf))
    ∧ (¬ '_' ∈ c.component_type.data →
        (Component.to_afsim_lines c).getLast? = some ("  end_" ++ c.component_type)) := by
  have hlast : (Component.to_afsim_lines c).getLast?
      = some ("  end_" ++ pySplitUnderscoreOnceLast c.component_type) := by
    rw [Component.to_afsim_lines, ← List.cons_append]
    exact List.getLast?_concat _
  rw [pySplit_eq_dropThrough] at hlast
  refine ⟨hlast, ?_, ?_⟩
  · intro pre suf hk hp
    rw [hlast, hk, dropThrough_append hp]
  · intro h
    rw [hlast, dropThroughFirstUnderscore, if_neg h]

/-- C9 witness: the closing tokens of a concrete mover component and of a
concrete component whose kind holds no underscore. -/
theorem C9_component_closing_token_witness :
    (Component.to_afsim_lines { name := "m1", component_type := "wsf_air_mover" }).getLast?
      = some ("  end_" ++ "air_mover")
    ∧ (Component.to_afsim_lines { name := "m2", component_type := "mover" }).getLast?
      = some ("  end_" ++ "mover") :=
  ⟨(C9_component_closing_token { name := "m1", component_type := "wsf_air_mover" }).2.1
      "wsf" "air_mover" (by decide) (by decide),
   (C9_component_closing_token { name := "m2", component_type := "mover" }).2.2
      (by decide)⟩

/- ------------------------------------------------------------------
   Claim C1: ScenarioManager.validate_scenario.
   ------------------------------------------------------------------ -/

/-- Error text for an empty scenario name. -/
def nameEmptyError : String := "Scenario name is empty."

/-- Error text for a non-positive duration (carries the value, as the
source formats it into the message). -/
def durationError (s : Scenario) : String :=
  "Simulation duration must be positive (got " ++ toString s.duration_s ++ ")."

/-- Error text for a non-positive time step. -/
def timeStepError (s : Scenario) : String :=
  "Time step must be positive (got " ++ toString s.time_step_s ++ ")."

/-- Warning text when the time step exceeds the duration. -/
def timeStepWarning : String := "Time step is larger than duration."

/-- Warning text for a scenario without platforms. -/
def noPlatformsWarning : String := "Scenario has no platforms."

/-- Error text for duplicate platform names. -/
def duplicateNamesError : String := "Duplicate platform names found."

/-- The errors list `validate_scenario` accumulates, in source order:
empty name, non-positive duration, non-positive time step, duplicate
platform names (the set-cardinality comparison `len(names) !=
len(set(names))` is the dedup-length comparison). -/
def scenarioValidationErrors (s : Scenario) : List String :=
  (if s.name = "" then [nameEmptyError] else [])
    ++ (if s.duration_s ≤ 0 then [durationError s] else [])
    ++ (if s.time_step_s ≤ 0 then [timeStepError s] else [])
    ++ (if (s.platforms.map Platform.name).length
          ≠ (s.platforms.map Platform.name).dedup.length
        then [duplicateNamesError] else [])

/-- The warnings list `validate_scenario` accumulates, in source order. -/
def scenarioValidationWarnings (s : Scenario) : List String :=
  (if s.time_step_s > s.duration_s then [timeStepWarning] else [])
    ++ (if s.platforms = [] then [noPlatformsWarning] else [])

/-- The validation report `{"valid": ..., "errors": ..., "warnings": ...}`. -/
structure ValidationReport where
  valid : Bool
  errors : List String
  warnings : List String
deriving DecidableEq

/-- `ScenarioManager.validate_scenario` on a scenario from the registry. -/
def validate_scenario (s : Scenario) : ValidationReport :=
  { valid := (scenarioValidationErrors s).length == 0,
    errors := scenarioValidationErrors s,
    warnings := scenarioValidationWarnings s }

theorem mem_if_singleton {α} {c : Prop} [Decidable c] {a m : α} :
    m ∈ (if c then [a] else []) ↔ c ∧ m = a := by
  by_cases h : c <;> simp [h]

theorem string_ne_lit_append {a lit x lit2 : String} {i : Nat} {u v : Char}
    (h1 : a.data[i]? = some u) (h2 : lit.data[i]? = some v)
    (hne : u ≠ v) : a ≠ lit ++ x ++ lit2 := by
  intro e
  have hi : i < lit.data.length := (List.getElem?_eq_some.mp h2).1
  have hd : a.data = lit.data ++ (x.data ++ lit2.data) := by
    rw [e, string_data_append, string_data_append, List.append_assoc]
  have h3 : a.data[i]? = some v := by
    rw [hd, List.getElem?_append_left hi, h2]
  rw [h1] at h3
  exact hne (Option.some.inj h3)

theorem timeStepWarning_ne_durationError (s : Scenario) :
    timeStepWarning ≠ durationError s := by
  unfold durationError
  exact string_ne_lit_append (i := 0) (u := 'T') (v := 'S')
    (by decide) (by decide) (by decide)

theorem timeStepWarning_ne_timeStepError (s : Scenario) :
    timeStepWarning ≠ timeStepError s := by
  unfold timeStepError
  exact string_ne_lit_append (i := 10) (u := 'i') (v := 'm')
    (by decide) (by decide) (by decide)

theorem noPlatformsWarning_ne_durationError (s : Scenario) :
    noPlatformsWarning ≠ durationError s := by
  unfold durationError
  exact string_ne_lit_append (i := 1) (u := 'c') (v := 'i')
    (by decide) (by decide) (by decide)

theorem noPlatformsWarning_ne_timeStepError (s : Scenario) :
    noPlatformsWarning ≠ timeStepError s := by
  unfold timeStepError
  exact string_ne_lit_append (i := 0) (u := 'S') (v := 'T')
    (by decide) (by decide) (by decide)

/-- Membership in the accumulated errors list, by source rule. -/
theorem mem_validationErrors (s : Scenario) (m : String) :
    m ∈ scenarioValidationErrors s ↔
      (s.name = "" ∧ m = nameEmptyError)
      ∨ (s.duration_s ≤ 0 ∧ m = durationError s)
      ∨ (s.time_step_s ≤ 0 ∧ m = timeStepError s)
      ∨ ((s.platforms.map Platform.name).length
            ≠ (s.platforms.map Platform.name).dedup.length
          ∧ m = duplicateNamesError) := by
  simp only [scenarioValidationErrors, List.mem_append, mem_if_singleton]
  tauto

theorem length_ne_dedup_of_not_nodup {α} [DecidableEq α] {l : List α}
    (h : ¬ l.Nodup) : l.length ≠ l.dedup.length := by
  intro he
  exact h (by
    have heq := l.dedup_sublist.eq_of_length he.symm
    rw [← heq]
    exact l.nodup_dedup)

/-- C1: `validate_scenario` reports `valid = true` iff its errors list is
empty (warnings never enter that test); an empty name, a non-positive
duration, a non-positive time step and duplicate platform names each put
their error in the errors list; a time step above the duration and an
empty platform list each put their message in the warnings list and never
in the errors list. -/
theorem C1_validate_scenario (s : Scenario) :
    ((validate_scenario s).valid = true ↔ (validate_scenario s).errors = [])
    ∧ (s.name = "" → nameEmptyError ∈ (validate_scenario s).errors)
    ∧ (s.duration_s ≤ 0 → durationError s ∈ (validate_scenario s).errors)
    ∧ (s.time_step_s ≤ 0 → timeStepError s ∈ (validate_scenario s).errors)
    ∧ (¬ (s.platforms.map Platform.name).Nodup →
        duplicateNamesError ∈ (validate_scenario s).errors)
    ∧ (s.time_step_s > s.duration_s →
        timeStepWarning ∈ (validate_scenario s).warnings
        ∧ timeStepWarning ∉ (validate_scenario s).errors)
    ∧ (s.platforms = [] →
        noPlatformsWarning ∈ (validate_scenario s).warnings
        ∧ noPlatformsWarning ∉ (validate_scenario s).errors) := by
  have herr : (validate_scenario s).errors = scenarioValidationErrors s := rfl
  have hwarn : (validate_scenario s).warnings = scenarioValidationWarnings s := rfl
  refine ⟨?_, ?_, ?_, ?_, ?_, ?_, ?_⟩
  · simp [validate_scenario, List.length_eq_zero]
  · intro h
    rw [herr, mem_validationErrors]
    exact Or.inl ⟨h, rfl⟩
  · intro h
    rw [herr, mem_validationErrors]
    exact Or.inr (Or.inl ⟨h, rfl⟩)
  · intro h
    rw [herr, mem_validationErrors]
    exact Or.inr (Or.inr (Or.inl ⟨h, rfl⟩))
  · intro h
    rw [herr, mem_validationErrors]
    exact Or.inr (Or.inr (Or.inr ⟨length_ne_dedup_of_not_nodup h, rfl⟩))
  · intro h
    refine ⟨?_, ?_⟩
    · rw [hwarn]
      simp [scenarioValidationWarnings, h]
    · rw [herr, mem_validationErrors]
      rintro (⟨_, he⟩ | ⟨_, he⟩ | ⟨_, he⟩ | ⟨_, he⟩)
      · exact absurd he (by decide)
      · exact timeStepWarning_ne_durationError s he
      · exact timeStepWarning_ne_timeStepError s he
      · exact absurd he (by decide)
  · intro h
    refine ⟨?_, ?_⟩
    · rw [hwarn]
      simp [scenarioValidationWarnings, h]
    · rw [herr, mem_validationErrors]
      rintro (⟨_, he⟩ | ⟨_, he⟩ | ⟨_, he⟩ | ⟨_, he⟩)
      · exact absurd he (by decide)
      · exact noPlatformsWarning_ne_durationError s he
      · exact noPlatformsWarning_ne_timeStepError s he
      · exact absurd he (by decide)

/-- Concrete scenario exercising the error and warning rules: empty name,
duration -2, time step -1, no platforms. -/
def c1Sample1 : Scenario :=
  { name := "", scenario_id := "s1", duration_s := -2, time_step_s := -1 }

/-- Concrete scenario carrying two platforms that share the name p1. -/
def c1Sample2 : Scenario :=
  { name := "a", scenario_id := "s2", platforms := [{ name := "p1" }, { name := "p1" }] }

/-- C1 witness: on `c1Sample1` the empty-name error appears, both warnings
appear and stay out of the errors list, and validity matches errors being
empty; on `c1Sample2` the duplicate-name error appears. -/
theorem C1_validate_scenario_witness :
    (((validate_scenario c1Sample1).valid = true
        ↔ (validate_scenario c1Sample1).errors = [])
      ∧ nameEmptyError ∈ (validate_scenario c1Sample1).errors
      ∧ (timeStepWarning ∈ (validate_scenario c1Sample1).warnings
          ∧ timeStepWarning ∉ (validate_scenario c1Sample1).errors)
      ∧ (noPlatformsWarning ∈ (validate_scenario c1Sample1).warnings
          ∧ noPlatformsWarning ∉ (validate_scenario c1Sample1).errors))
    ∧ duplicateNamesError ∈ (validate_scenario c1Sample2).errors := by
  refine ⟨⟨?_, ?_, ?_, ?_⟩, ?_⟩
  · exact (C1_validate_scenario c1Sample1).1
  · exact (C1_validate_scenario c1Sample1).2.1 rfl
  · exact (C1_validate_scenario c1Sample1).2.2.2.2.2.1 (by decide)
  · exact (C1_validate_scenario c1Sample1).2.2.2.2.2.2 rfl
  · exact (C1_validate_scenario c1Sample2).2.2.2.2.1 (by decide)

/- ------------------------------------------------------------------
   Structured (JSON tree) persisted form: _scenario_to_dict and
   _scenario_from_dict.  Claims C2 and C10.
   ------------------------------------------------------------------ -/

/-- The nested position object of the persisted tree; every field is read
back with `.get(key, default)`, so each is optional. -/
structure PositionDict where
  latitude : Option Rat := none
  longitude : Option Rat := none
  altitude_m : Option Rat := none
deriving DecidableEq

/-- The nested component object; `name` and `component_type` are read back
by mandatory indexing, `parameters` with a default. -/
structure ComponentDict where
  name : String
  component_type : String
  parameters : Option Params := none
deriving DecidableEq

/-- The nested platform object; `name` is mandatory, the rest defaulted. -/
structure PlatformDict where
  name : String
  platform_type : Option String := none
  position : Option PositionDict := none
  parameters : Option Params := none
  components : Option (List ComponentDict) := none
deriving DecidableEq

/-- The top-level scenario object; `name` is mandatory, the rest read with
defaults (`scenario_id` defaults to the empty string). -/
structure ScenarioDict where
  scenario_id : Option String := none
  name : String
  description : Option String := none
  duration_s : Option Rat := none
  time_step_s : Option Rat := none
  parameters : Option Params := none
  platforms : Option (List PlatformDict) := none
deriving DecidableEq

/-- The component entry `_scenario_to_dict` writes. -/
def _component_to_dict (c : Component) : ComponentDict :=
  { name := c.name, component_type := c.component_type,
    parameters := some c.parameters }

/-- The platform entry `_scenario_to_dict` writes. -/
def _platform_to_dict (p : Platform) : PlatformDict :=
  { name := p.name,
    platform_type := some p.platform_type,
    position := some { latitude := some p.position.latitude,
                       longitude := some p.position.longitude,
                       altitude_m := some p.position.altitude_m },
    parameters := some p.parameters,
    components := some (p.components.map _component_to_dict) }

/-- `ScenarioManager._scenario_to_dict`. -/
def _scenario_to_dict (s : Scenario) : ScenarioDict :=
  { scenario_id := some s.scenario_id,
    name := s.name,
    description := some s.description,
    duration_s := some s.duration_s,
    time_step_s := some s.time_step_s,
    parameters := some s.parameters,
    platforms := some (s.platforms.map _platform_to_dict) }

/-- `pd.get("position", {})` followed by the three `pos_data.get` reads. -/
def _position_from_dict (pd : Option PositionDict) : Position :=
  let pos_data := pd.getD {}
  { latitude := pos_data.latitude.getD 0,
    longitude := pos_data.longitude.getD 0,
    altitude_m := pos_data.altitude_m.getD 0 }

/-- The component built from one entry of `pd.get("components", [])`. -/
def _component_from_dict (cd : ComponentDict) : Component :=
  { name := cd.name, component_type := cd.component_type,
    parameters := cd.parameters.getD [] }

/-- The platform built from one entry of `data.get("platforms", [])`. -/
def _platform_from_dict (pd : PlatformDict) : Platform :=
  { name := pd.name,
    platform_type := pd.platform_type.getD "wsf_platform",
    position := _position_from_dict pd.position,
    components := (pd.components.getD []).map _component_from_dict,
    parameters := pd.parameters.getD [] }

/-- `ScenarioManager._scenario_from_dict` (the scenario's `file_path`
stays at its constructor default, None). -/
def _scenario_from_dict (d : ScenarioDict) : Scenario :=
  { name := d.name,
    scenario_id := d.scenario_id.getD "",
    description := d.description.getD "",
    duration_s := d.duration_s.getD 3600,
    time_step_s := d.time_step_s.getD 1,
    platforms := (d.platforms.getD []).map _platform_from_dict,
    parameters := d.parameters.getD [],
    file_path := none }

theorem component_from_to_dict (c : Component) :
    _component_from_dict (_component_to_dict c) = c := rfl

theorem map_component_from_to (l : List Component) :
    l.map (_component_from_dict ∘ _component_to_dict) = l := by
  induction l with
  | nil => rfl
  | cons c cs ih => simp [Function.comp, component_from_to_dict, ih]

theorem platform_from_to_dict (p : Platform) :
    _platform_from_dict (_platform_to_dict p) = p := by
  cases p with
  | mk name ptype pos comps params =>
    cases pos
    simp [_platform_from_dict, _platform_to_dict, _position_from_dict,
      List.map_map, map_component_from_to]

/-- C2: reading the structured tree of a scenario back yields a scenario
with equal name, duration, time step, parameters and platform graph (each
platform with its name, type, position, parameters and ordered components,
each component with its name, kind and parameters: platform-list equality
is full structural equality). -/
theorem C2_structured_roundtrip (s : Scenario) :
    (_scenario_from_dict (_scenario_to_dict s)).name = s.name
    ∧ (_scenario_from_dict (_scenario_to_dict s)).duration_s = s.duration_s
    ∧ (_scenario_from_dict (_scenario_to_dict s)).time_step_s = s.time_step_s
    ∧ (_scenario_from_dict (_scenario_to_dict s)).parameters = s.parameters
    ∧ (_scenario_from_dict (_scenario_to_dict s)).platforms = s.platforms := by
  refine ⟨rfl, rfl, rfl, rfl, ?_⟩
  have h : ∀ l : List Platform,
      (l.map _platform_to_dict).map _platform_from_dict = l := by
    intro l
    induction l with
    | nil => rfl
    | cons p ps ih => simp only [List.map_cons, platform_from_to_dict, ih]
  exact h s.platforms

/- ------------------------------------------------------------------
   Claim C10: load_scenario_json and a tree lacking scenario_id.
   ------------------------------------------------------------------ -/

/-- The in-memory registry `_active_scenarios`, as its lookup function. -/
def Registry := String → Option Scenario

/-- Python dict assignment `registry[key] = s`. -/
def registryInsert (key : String) (s : Scenario) (r : Registry) : Registry :=
  fun k => if k = key then some s else r k

/-- `ScenarioManager.load_scenario_json` once the file's JSON text has been
parsed into the tree `d`: build the scenario, record the source path, and
register it under its identifier. -/
def load_scenario_json (d : ScenarioDict) (file_path : String) (r : Registry) :
    Registry × Scenario :=
  let s0 := _scenario_from_dict d
  let s : Scenario := { s0 with file_path := some file_path }
  (registryInsert s.scenario_id s r, s)

/-- C10: a structured file whose top-level object lacks `scenario_id`
loads to a scenario whose identifier is the empty string, and two
successive such loads both register under the key `""`, the second
replacing the first: the final registry equals the original registry with
only the second scenario inserted. -/
theorem C10_missing_scenario_id (d1 d2 : ScenarioDict) (p1 p2 : String)
    (r : Registry) (h1 : d1.scenario_id = none) (h2 : d2.scenario_id = none) :
    (_scenario_from_dict d1).scenario_id = ""
    ∧ (_scenario_from_dict d2).scenario_id = ""
    ∧ ((load_scenario_json d2 p2 (load_scenario_json d1 p1 r).1).1) ""
        = some (load_scenario_json d2 p2 (load_scenario_json d1 p1 r).1).2
    ∧ (load_scenario_json d2 p2 (load_scenario_json d1 p1 r).1).1
        = registryInsert ""
            (load_scenario_json d2 p2 (load_scenario_json d1 p1 r).1).2 r := by
  have e1 : (_scenario_from_dict d1).scenario_id = "" := by
    simp [_scenario_from_dict, h1]
  have e2 : (_scenario_from_dict d2).scenario_id = "" := by
    simp [_scenario_from_dict, h2]
  refine ⟨e1, e2, ?_, ?_⟩
  · simp [load_scenario_json, registryInsert, e2]
  · funext k
    by_cases hk : k = ""
    · subst hk
      simp [load_scenario_json, registryInsert, e2]
    · simp [load_scenario_json, registryInsert, e1, e2, hk]

/-- Concrete trees without a `scenario_id` field. -/
def c10Dict1 : ScenarioDict := { name := "alpha" }

/-- Second concrete tree without a `scenario_id` field. -/
def c10Dict2 : ScenarioDict := { name := "beta" }

/-- The empty registry. -/
def emptyRegistry : Registry := fun _ => none

/-- C10 witness: loading the two concrete id-less trees in sequence into
an empty registry registers both under the empty-string key, the second
replacing the first. -/
theorem C10_missing_scenario_id_witness :
    (_scenario_from_dict c10Dict1).scenario_id = ""
    ∧ (_scenario_from_dict c10Dict2).scenario_id = ""
    ∧ ((load_scenario_json c10Dict2 "b.json"
          (load_scenario_json c10Dict1 "a.json" emptyRegistry).1).1) ""
        = some (load_scenario_json c10Dict2 "b.json"
            (load_scenario_json c10Dict1 "a.json" emptyRegistry).1).2
    ∧ (load_scenario_json c10Dict2 "b.json"
          (load_scenario_json c10Dict1 "a.json" emptyRegistry).1).1
        = registryInsert ""
            (load_scenario_json c10Dict2 "b.json"
              (load_scenario_json c10Dict1 "a.json" emptyRegistry).1).2
            emptyRegistry :=
  C10_missing_scenario_id c10Dict1 c10Dict2 "a.json" "b.json" emptyRegistry rfl rfl


/- ------------------------------------------------------------------
   Entity Manager: create_platform, delete_platform, remove_component.
   Claims C4 and C5.
   ------------------------------------------------------------------ -/

/-- The summary dictionary `_platform_info` returns. -/
structure PlatformInfo where
  name : String
  platform_type : String
  latitude : Rat
  longitude : Rat
  altitude_m : Rat
  component_count : Nat
  parameters : Params
deriving DecidableEq

/-- `EntityManager._platform_info`. -/
def _platform_info (p : Platform) : PlatformInfo :=
  { name := p.name, platform_type := p.platform_type,
    latitude := p.position.latitude, longitude := p.position.longitude,
    altitude_m := p.position.altitude_m,
    component_count := p.components.length, parameters := p.parameters }

/-- `EntityManager._check_unique_platform`: the raised ValueError is the
error branch; set membership of the name among the platform names. -/
def _check_unique_platform (s : Scenario) (name : String) : Except String Unit :=
  if name ∈ s.platforms.map Platform.name then
    Except.error ("Platform '" ++ name ++ "' already exists in scenario '"
      ++ s.name ++ "'.")
  else Except.ok ()

/-- `EntityManager.create_platform` on the scenario fetched from the
registry.  The uniqueness check runs before any mutation, so the error
branch carries the scenario back unchanged next to the raised message. -/
def create_platform (s : Scenario) (name platform_type : String)
    (latitude longitude altitude_m : Rat) (parameters : Params) :
    Scenario × Except String PlatformInfo :=
  match _check_unique_platform s name with
  | Except.error e => (s, Except.error e)
  | Except.ok _ =>
    let platform : Platform :=
      { name := name, platform_type := platform_type,
        position := { latitude := latitude, longitude := longitude,
                      altitude_m := altitude_m },
        parameters := parameters }
    ({ s with platforms := s.platforms ++ [platform] },
     Except.ok (_platform_info platform))

/-- C4: creating a platform whose name is already taken in the scenario
returns the AlreadyExists error and the unchanged scenario; creating one
under a fresh name succeeds, appends the new platform, and raises the
platform count by exactly one. -/
theorem C4_create_platform (s : Scenario) (name platform_type : String)
    (lat lon alt : Rat) (ps : Params) :
    (name ∈ s.platforms.map Platform.name →
      create_platform s name platform_type lat lon alt ps
        = (s, Except.error ("Platform '" ++ name ++ "' already exists in scenario '"
            ++ s.name ++ "'.")))
    ∧ (name ∉ s.platforms.map Platform.name →
      (create_platform s name platform_type lat lon alt ps).1.platforms
          = s.platforms
            ++ [{ name := name, platform_type := platform_type,
                  position := { latitude := lat, longitude := lon,
                                altitude_m := alt },
                  parameters := ps }]
      ∧ (create_platform s name platform_type lat lon alt ps).1.platforms.length
          = s.platforms.length + 1
      ∧ (create_platform s name platform_type lat lon alt ps).2
          = Except.ok (_platform_info
              { name := name, platform_type := platform_type,
                position := { latitude := lat, longitude := lon,
                              altitude_m := alt },
                parameters := ps })) := by
  constructor
  · intro h
    simp [create_platform, _check_unique_platform, h]
  · intro h
    refine ⟨?_, ?_, ?_⟩ <;> simp [create_platform, _check_unique_platform, h]

/-- Concrete scenario holding one platform named p1. -/
def c4Sample : Scenario :=
  { name := "sc", scenario_id := "s4", platforms := [{ name := "p1" }] }

/-- C4 witness: on `c4Sample`, creating p1 again fails with the
AlreadyExists message and leaves the scenario unchanged; creating p2
succeeds and raises the count from 1 to 2. -/
theorem C4_create_platform_witness :
    create_platform c4Sample "p1" "wsf_platform" 0 0 0 []
      = (c4Sample, Except.error ("Platform '" ++ "p1"
          ++ "' already exists in scenario '" ++ c4Sample.name ++ "'."))
    ∧ (create_platform c4Sample "p2" "wsf_platform" 0 0 0 []).1.platforms.length
        = c4Sample.platforms.length + 1 :=
  ⟨(C4_create_platform c4Sample "p1" "wsf_platform" 0 0 0 []).1 (by decide),
   ((C4_create_platform c4Sample "p2" "wsf_platform" 0 0 0 []).2 (by decide)).2.1⟩

/-- `EntityManager.delete_platform` on the fetched scenario: keep the
platforms whose name differs, report whether the list shrank. -/
def delete_platform (s : Scenario) (platform_name : String) : Scenario × Bool :=
  let new_platforms := s.platforms.filter (fun p => p.name != platform_name)
  ({ s with platforms := new_platforms },
   decide (new_platforms.length < s.platforms.length))

/-- `EntityManager.remove_component` on the platform fetched by
`_get_platform`: keep the components whose name differs, report whether
the list shrank. -/
def remove_component (p : Platform) (component_name : String) : Platform × Bool :=
  let new_components := p.components.filter (fun c => c.name != component_name)
  ({ p with components := new_components },
   decide (new_components.length < p.components.length))

/-- Concrete platform carrying two components that share the name a. -/
def c5Platform : Platform :=
  { name := "p1",
    components := [{ name := "a", component_type := "wsf_sensor" },
                   { name := "a", component_type := "wsf_radar_sensor" }] }

/-- C5 counterexample: on a platform with two identically named components
(the source applies no uniqueness check to component names),
`remove_component` returns true but the component list length falls from
2 to 0 — not by exactly one as the claim states. -/
theorem C5_counterexample :
    (remove_component c5Platform "a").2 = true
    ∧ c5Platform.components.length = 2
    ∧ (remove_component c5Platform "a").1.components.length = 0
    ∧ (remove_component c5Platform "a").1.components.length
        ≠ c5Platform.components.length - 1 := by
  refine ⟨rfl, rfl, rfl, by decide⟩

theorem length_filter_bne_add_countP {α} (l : List α) (f : α → String) (n : String) :
    (l.filter (fun a => f a != n)).length
      + l.countP (fun a => f a == n) = l.length := by
  induction l with
  | nil => rfl
  | cons a t ih =>
    rw [List.filter_cons, List.countP_cons]
    by_cases h : (f a == n) = true
    · rw [if_neg (by simp [bne, h]), if_pos h, List.length_cons]
      omega
    · have hfa : (f a == n) = false := by
        cases hb : (f a == n)
        · rfl
        · exact absurd hb h
      rw [if_pos (by simp [bne, hfa]), if_neg h, List.length_cons, List.length_cons]
      omega

/-- C5 amended: with a name matching no element, `delete_platform` and
`remove_component` return false and leave the owner unchanged; with a
name matching at least one element they return true and the owning
collection's length decreases by exactly the number of elements bearing
that name (at least one — exactly one whenever that name is borne by a
single element). -/
theorem C5_remove_amended (s : Scenario) (p : Platform) (pname cname : String) :
    ((¬ ∃ q ∈ s.platforms, q.name = pname) →
        (delete_platform s pname).2 = false
        ∧ (delete_platform s pname).1 = s)
    ∧ ((∃ q ∈ s.platforms, q.name = pname) →
        (delete_platform s pname).2 = true
        ∧ (delete_platform s pname).1.platforms.length
            + s.platforms.countP (fun q => q.name == pname)
            = s.platforms.length
        ∧ 1 ≤ s.platforms.countP (fun q => q.name == pname))
    ∧ ((¬ ∃ c ∈ p.components, c.name = cname) →
        (remove_component p cname).2 = false
        ∧ (remove_component p cname).1 = p)
    ∧ ((∃ c ∈ p.components, c.name = cname) →
        (remove_component p cname).2 = true
        ∧ (remove_component p cname).1.components.length
            + p.components.countP (fun c => c.name == cname)
            = p.components.length
        ∧ 1 ≤ p.components.countP (fun c => c.name == cname)) := by
  have hplat := length_filter_bne_add_countP s.platforms Platform.name pname
  have hcomp := length_filter_bne_add_countP p.components Component.name cname
  refine ⟨?_, ?_, ?_, ?_⟩
  · intro h
    have hf : s.platforms.filter (fun q => q.name != pname) = s.platforms := by
      rw [List.filter_eq_self]
      intro q hq
      simp only [bne_iff_ne, ne_eq]
      exact fun he => h ⟨q, hq, he⟩
    constructor
    · simp [delete_platform, hf]
    · simp only [delete_platform, hf]
  · intro h
    have hpos : 0 < s.platforms.countP (fun q => q.name == pname) := by
      rw [List.countP_pos_iff]
      obtain ⟨q, hq, he⟩ := h
      exact ⟨q, hq, by simp [he]⟩
    refine ⟨?_, hplat, hpos⟩
    simp only [delete_platform, decide_eq_true_eq]
    omega
  · intro h
    have hf : p.components.filter (fun c => c.name != cname) = p.components := by
      rw [List.filter_eq_self]
      intro c hc
      simp only [bne_iff_ne, ne_eq]
      exact fun he => h ⟨c, hc, he⟩
    constructor
    · simp [remove_component, hf]
    · simp only [remove_component, hf]
  · intro h
    have hpos : 0 < p.components.countP (fun c => c.name == cname) := by
      rw [List.countP_pos_iff]
      obtain ⟨c, hc, he⟩ := h
      exact ⟨c, hc, by simp [he]⟩
    refine ⟨?_, hcomp, hpos⟩
    simp only [remove_component, decide_eq_true_eq]
    omega

/-- Concrete scenario holding one platform named p1, for the amended-C5
witness. -/
def c5Scenario : Scenario :=
  { name := "sc5", scenario_id := "s5", platforms := [{ name := "p1" }] }

/-- C5 amended witness: deleting the absent name zz returns false and
changes nothing; deleting p1 returns true; removing the duplicated
component name a returns true and shrinks the list by its count. -/
theorem C5_remove_amended_witness :
    ((delete_platform c5Scenario "zz").2 = false
      ∧ (delete_platform c5Scenario "zz").1 = c5Scenario)
    ∧ (delete_platform c5Scenario "p1").2 = true
    ∧ ((remove_component c5Platform "a").2 = true
        ∧ (remove_component c5Platform "a").1.components.length
            + c5Platform.components.countP (fun c => c.name == "a")
            = c5Platform.components.length) :=
  ⟨(C5_remove_amended c5Scenario c5Platform "zz" "a").1 (by decide),
   ((C5_remove_amended c5Scenario c5Platform "p1" "a").2.1 (by decide)).1,
   ((C5_remove_amended c5Scenario c5Platform "p1" "a").2.2.2 (by decide)).1,
   ((C5_remove_amended c5Scenario c5Platform "p1" "a").2.2.2 (by decide)).2.1⟩


/- ------------------------------------------------------------------
   Simulation Controller.  Claims C3, C6, C7, C8.
   ------------------------------------------------------------------ -/

/-- `models.SimulationStatus`. -/
inductive SimulationStatus
  | idle | running | paused | completed | failed | stopped
deriving DecidableEq

/-- `models.SimulationRun`.  Timestamps are the opaque ISO strings `_now`
returns; the process id is a number. -/
structure SimulationRun where
  run_id : String := ""
  scenario_name : String := ""
  scenario_file : String := ""
  status : SimulationStatus := SimulationStatus.idle
  start_time : Option String := none
  end_time : Option String := none
  pid : Option Nat := none
  output_dir : String := ""
  log_file : String := ""
  error_message : String := ""
  result_files : List String := []
deriving DecidableEq

/-- Outcome of `os.kill(pid, 15)`: delivered; ProcessLookupError (the
process already exited — the only exception the source catches); or any
other exception, such as PermissionError, which the source does not
catch. -/
inductive KillOutcome
  | delivered
  | processLookupError
  | otherError (msg : String)
deriving DecidableEq

/-- `SimulationController.stop_simulation` on the run fetched from the run
registry.  An `Except.error` models an exception escaping to the caller. -/
def stop_simulation (run : SimulationRun) (kill : KillOutcome) (now : String) :
    Except String SimulationRun :=
  if run.status ≠ SimulationStatus.running then Except.ok run
  else
    match run.pid with
    | some _ =>
      match kill with
      | KillOutcome.delivered =>
          Except.ok { run with status := SimulationStatus.stopped,
                               end_time := some now }
      | KillOutcome.processLookupError =>
          Except.ok { run with status := SimulationStatus.completed,
                               end_time := some now }
      | KillOutcome.otherError msg => Except.error msg
    | none =>
        Except.ok { run with status := SimulationStatus.stopped,
                             end_time := some now }

/-- `SimulationController._refresh_status`, the liveness probe applied at
status time: `alive` is whether `os.kill(pid, 0)` found the process. -/
def _refresh_status (run : SimulationRun) (alive : Bool) (now : String) :
    SimulationRun :=
  if run.status ≠ SimulationStatus.running ∨ run.pid = none then run
  else if alive then run
  else { run with status := SimulationStatus.completed, end_time := some now }

/-- One stop or status-probe operation applied to a run record, carrying
the OS outcome it observes. -/
inductive RunOp
  | stop (kill : KillOutcome) (now : String)
  | refresh (alive : Bool) (now : String)

/-- Apply one operation to a run record. -/
def applyRunOp (run : SimulationRun) : RunOp → Except String SimulationRun
  | RunOp.stop k t => stop_simulation run k t
  | RunOp.refresh a t => Except.ok (_refresh_status run a t)

/-- Apply a sequence of operations, halting at a propagated exception. -/
def applyRunOps (run : SimulationRun) : List RunOp → Except String SimulationRun
  | [] => Except.ok run
  | op :: ops =>
    match applyRunOp run op with
    | Except.ok r2 => applyRunOps r2 ops
    | Except.error e => Except.error e

/-- The terminal statuses of the per-run state machine. -/
def SimulationStatus.isTerminal : SimulationStatus → Bool
  | SimulationStatus.completed => true
  | SimulationStatus.failed => true
  | SimulationStatus.stopped => true
  | _ => false

/-- C3: stopping a run that is not in the running state returns the record
unchanged; the status-time liveness probe leaves any non-running run
untouched; hence once a run's status is terminal (completed, failed or
stopped), no sequence of stop/status operations changes the record at
all. -/
theorem C3_terminal_states (run : SimulationRun) :
    (∀ k t, run.status ≠ SimulationStatus.running →
        stop_simulation run k t = Except.ok run)
    ∧ (∀ a t, run.status ≠ SimulationStatus.running →
        _refresh_status run a t = run)
    ∧ (∀ ops, run.status.isTerminal = true →
        applyRunOps run ops = Except.ok run) := by
  have hstop : ∀ k t, run.status ≠ SimulationStatus.running →
      stop_simulation run k t = Except.ok run := by
    intro k t h
    simp [stop_simulation, h]
  have href : ∀ a t, run.status ≠ SimulationStatus.running →
      _refresh_status run a t = run := by
    intro a t h
    simp [_refresh_status, h]
  refine ⟨hstop, href, ?_⟩
  intro ops hterm
  have hne : run.status ≠ SimulationStatus.running := by
    intro he
    rw [he] at hterm
    exact absurd hterm (by decide)
  induction ops with
  | nil => rfl
  | cons op rest ih =>
    have happ : applyRunOp run op = Except.ok run := by
      cases op with
      | stop k t => exact hstop k t hne
      | refresh a t => simp [applyRunOp, href a t hne]
    simp [applyRunOps, happ, ih]

/-- Concrete terminal run record. -/
def c3Run : SimulationRun :=
  { run_id := "r3", status := SimulationStatus.completed, pid := some 3 }

/-- C3 witness: on a concrete completed run, stop and the probe are
no-ops, and so is a concrete stop/probe sequence. -/
theorem C3_terminal_states_witness :
    stop_simulation c3Run KillOutcome.delivered "t1" = Except.ok c3Run
    ∧ _refresh_status c3Run false "t2" = c3Run
    ∧ applyRunOps c3Run [RunOp.stop KillOutcome.delivered "t1",
        RunOp.refresh false "t2"] = Except.ok c3Run :=
  ⟨(C3_terminal_states c3Run).1 KillOutcome.delivered "t1" (by decide),
   (C3_terminal_states c3Run).2.1 false "t2" (by decide),
   (C3_terminal_states c3Run).2.2 [RunOp.stop KillOutcome.delivered "t1",
      RunOp.refresh false "t2"] (by decide)⟩

/-- Controller configuration: the configured binary path and the base
directories. -/
structure ControllerConfig where
  afsim_binary : String := ""
  output_dir : String := "simulation_output"
  scenarios_dir : String := "scenarios"
deriving DecidableEq

/-- The default path `save_scenario` writes: `<scenarios_dir>/<name>.afsim`. -/
def default_scenario_path (cfg : ControllerConfig) (s : Scenario) : String :=
  cfg.scenarios_dir ++ "/" ++ s.name ++ ".afsim"

/-- Filesystem and process side effects of `run_simulation`, in order. -/
inductive RunEffect
  | saveScenario (path : String)
  | makeOutputDir (path : String)
  | spawnProcess (cmd : List String)
deriving DecidableEq

/-- Outcome of `subprocess.Popen`: a started process with its pid, or a
raised exception, in which case no process came into being. -/
inductive SpawnOutcome
  | started (pid : Nat)
  | raised (msg : String)
deriving DecidableEq

/-- A run record together with the side effects performed while building
it. -/
structure RunResult where
  run : SimulationRun
  effects : List RunEffect
deriving DecidableEq

/-- `SimulationController.run_simulation` on the scenario fetched from the
scenario registry.  The scenario is first persisted through
`save_scenario` and the output directory created; then the dry-run or
unconfigured-binary branch completes immediately, a configured but missing
binary fails the run, and otherwise the spawn either starts a process or
its exception is caught and recorded — the function is total, no exception
escapes it. -/
def run_simulation (cfg : ControllerConfig) (s : Scenario) (run_id : String)
    (extra_args : List String) (dry_run : Bool) (binary_exists : Bool)
    (spawn : SpawnOutcome) (now : String) : RunResult :=
  let scenario_file := default_scenario_path cfg s
  let run0 : SimulationRun :=
    { run_id := run_id, scenario_name := s.name, scenario_file := scenario_file,
      status := SimulationStatus.idle,
      output_dir := cfg.output_dir ++ "/" ++ s.name }
  let pre := [RunEffect.saveScenario scenario_file,
              RunEffect.makeOutputDir run0.output_dir]
  if dry_run || cfg.afsim_binary == "" then
    { run := { run0 with
        status := SimulationStatus.completed,
        start_time := some now, end_time := some now },
      effects := pre }
  else if binary_exists = false then
    { run := { run0 with
        status := SimulationStatus.failed,
        error_message := "AFSIM binary not found: " ++ cfg.afsim_binary },
      effects := pre }
  else
    let cmd := cfg.afsim_binary :: scenario_file :: extra_args
    let run1 := { run0 with log_file := run0.output_dir ++ "/simulation.log" }
    match spawn with
    | SpawnOutcome.started pid =>
      { run := { run1 with
          pid := some pid, status := SimulationStatus.running,
          start_time := some now },
        effects := pre ++ [RunEffect.spawnProcess cmd] }
    | SpawnOutcome.raised msg =>
      { run := { run1 with
          status := SimulationStatus.failed, error_message := msg },
        effects := pre }

/-- `run_simulation` behind the registry lookup `get_scenario`; the
KeyError for an unknown identifier is the error branch. -/
def run_simulation_in (r : Registry) (cfg : ControllerConfig)
    (scenario_id run_id : String) (extra_args : List String) (dry_run : Bool)
    (binary_exists : Bool) (spawn : SpawnOutcome) (now : String) :
    Except String RunResult :=
  match r scenario_id with
  | none => Except.error ("Scenario '" ++ scenario_id ++ "' not found.")
  | some s => Except.ok
      (run_simulation cfg s run_id extra_args dry_run binary_exists spawn now)

/-- C6: for a registered scenario, a dry run (or a run with no configured
binary) yields a completed run with non-null start and end timestamps and
a null pid, spawns no process, and still persists the scenario first (the
save effect opens the effect trace). -/
theorem C6_dry_run (r : Registry) (cfg : ControllerConfig)
    (sid rid : String) (args : List String) (binary_exists : Bool)
    (spawn : SpawnOutcome) (now : String) (dry_run : Bool) (s : Scenario)
    (hreg : r sid = some s) (hdry : dry_run = true ∨ cfg.afsim_binary = "") :
    run_simulation_in r cfg sid rid args dry_run binary_exists spawn now
      = Except.ok (run_simulation cfg s rid args dry_run binary_exists spawn now)
    ∧ (run_simulation cfg s rid args dry_run binary_exists spawn now).run.status
        = SimulationStatus.completed
    ∧ (run_simulation cfg s rid args dry_run binary_exists spawn now).run.start_time
        ≠ none
    ∧ (run_simulation cfg s rid args dry_run binary_exists spawn now).run.end_time
        ≠ none
    ∧ (run_simulation cfg s rid args dry_run binary_exists spawn now).run.pid = none
    ∧ (∀ cmd, RunEffect.spawnProcess cmd ∉
        (run_simulation cfg s rid args dry_run binary_exists spawn now).effects)
    ∧ (run_simulation cfg s rid args dry_run binary_exists spawn now).effects.head?
        = some (RunEffect.saveScenario (default_scenario_path cfg s)) := by
  have hcond : (dry_run || (cfg.afsim_binary == "")) = true := by
    rcases hdry with h | h <;> simp [h]
  refine ⟨by simp [run_simulation_in, hreg], ?_, ?_, ?_, ?_, ?_, ?_⟩
    <;> simp [run_simulation, hcond]

/-- Concrete scenario, registry and configuration for the dry-run path
(no binary configured). -/
def c6Scenario : Scenario := { name := "demo", scenario_id := "sc6" }

/-- Registry holding only `c6Scenario`. -/
def c6Registry : Registry := registryInsert "sc6" c6Scenario emptyRegistry

/-- Default controller configuration: no binary configured. -/
def c6Config : ControllerConfig := {}

/-- C6 witness: running the registered concrete scenario without a
configured binary completes immediately with a null pid and no spawn. -/
theorem C6_dry_run_witness :
    run_simulation_in c6Registry c6Config "sc6" "r6" [] false true
        (SpawnOutcome.started 1) "t0"
      = Except.ok (run_simulation c6Config c6Scenario "r6" [] false true
          (SpawnOutcome.started 1) "t0")
    ∧ (run_simulation c6Config c6Scenario "r6" [] false true
        (SpawnOutcome.started 1) "t0").run.status = SimulationStatus.completed
    ∧ (run_simulation c6Config c6Scenario "r6" [] false true
        (SpawnOutcome.started 1) "t0").run.pid = none :=
  ⟨(C6_dry_run c6Registry c6Config "sc6" "r6" [] true (SpawnOutcome.started 1)
      "t0" false c6Scenario (by decide) (Or.inr rfl)).1,
   (C6_dry_run c6Registry c6Config "sc6" "r6" [] true (SpawnOutcome.started 1)
      "t0" false c6Scenario (by decide) (Or.inr rfl)).2.1,
   (C6_dry_run c6Registry c6Config "sc6" "r6" [] true (SpawnOutcome.started 1)
      "t0" false c6Scenario (by decide) (Or.inr rfl)).2.2.2.2.1⟩

theorem string_append_assoc (a b c : String) : a ++ b ++ c = a ++ (b ++ c) := by
  cases a with
  | mk x =>
    cases b with
    | mk y =>
      cases c with
      | mk z =>
        show String.mk (x ++ y ++ z) = String.mk (x ++ (y ++ z))
        rw [List.append_assoc]

/-- C7: with a real (non-dry) run, a configured binary path that does not
exist on disk yields a failed run whose error message carries a not-found
indication, with a null pid and no spawned process. -/
theorem C7_missing_binary (r : Registry) (cfg : ControllerConfig)
    (sid rid : String) (args : List String) (spawn : SpawnOutcome)
    (now : String) (s : Scenario)
    (hreg : r sid = some s) (hbin : cfg.afsim_binary ≠ "") :
    run_simulation_in r cfg sid rid args false false spawn now
      = Except.ok (run_simulation cfg s rid args false false spawn now)
    ∧ (run_simulation cfg s rid args false false spawn now).run.status
        = SimulationStatus.failed
    ∧ (run_simulation cfg s rid args false false spawn now).run.error_message
        = "AFSIM binary not found: " ++ cfg.afsim_binary
    ∧ (∃ pre post,
        (run_simulation cfg s rid args false false spawn now).run.error_message
          = pre ++ "not found" ++ post)
    ∧ (run_simulation cfg s rid args false false spawn now).run.pid = none
    ∧ (∀ cmd, RunEffect.spawnProcess cmd ∉
        (run_simulation cfg s rid args false false spawn now).effects) := by
  have hcond : (false || (cfg.afsim_binary == "")) = false := by
    simp [hbin]
  have hmsg : (run_simulation cfg s rid args false false spawn now).run.error_message
      = "AFSIM binary not found: " ++ cfg.afsim_binary := by
    simp [run_simulation, hcond]
  refine ⟨by simp [run_simulation_in, hreg], ?_, hmsg, ?_, ?_, ?_⟩
  · simp [run_simulation, hcond]
  · refine ⟨"AFSIM binary ", ": " ++ cfg.afsim_binary, ?_⟩
    rw [hmsg]
    rw [string_append_assoc "AFSIM binary " "not found" (": " ++ cfg.afsim_binary),
       ← string_append_assoc "not found" ": " cfg.afsim_binary]
    have hlit : ("AFSIM binary " : String) ++ ("not found" ++ ": ") =
        "AFSIM binary not found: " := by decide
    rw [← string_append_assoc "AFSIM binary " ("not found" ++ ": ") cfg.afsim_binary,
       hlit]
  · simp [run_simulation, hcond]
  · simp [run_simulation, hcond]

/-- Concrete configuration with a binary path configured. -/
def c7Config : ControllerConfig := { afsim_binary := "/opt/afsim/bin/wsf" }

/-- C7 witness: the registered concrete scenario run against the
configured but absent binary fails with the not-found message and a null
pid. -/
theorem C7_missing_binary_witness :
    (run_simulation c7Config c6Scenario "r7" [] false false
        (SpawnOutcome.started 1) "t0").run.status = SimulationStatus.failed
    ∧ (run_simulation c7Config c6Scenario "r7" [] false false
        (SpawnOutcome.started 1) "t0").run.error_message
        = "AFSIM binary not found: " ++ c7Config.afsim_binary
    ∧ (run_simulation c7Config c6Scenario "r7" [] false false
        (SpawnOutcome.started 1) "t0").run.pid = none :=
  ⟨(C7_missing_binary c6Registry c7Config "sc6" "r7" [] (SpawnOutcome.started 1)
      "t0" c6Scenario (by decide) (by decide)).2.1,
   (C7_missing_binary c6Registry c7Config "sc6" "r7" [] (SpawnOutcome.started 1)
      "t0" c6Scenario (by decide) (by decide)).2.2.1,
   (C7_missing_binary c6Registry c7Config "sc6" "r7" [] (SpawnOutcome.started 1)
      "t0" c6Scenario (by decide) (by decide)).2.2.2.2.1⟩

/-- Concrete running run with a recorded pid. -/
def c8Run : SimulationRun :=
  { run_id := "r8", status := SimulationStatus.running, pid := some 42 }

/-- C8 counterexample: the claim says every failure while operating on the
external process is encoded as a failed run with its error message set and
never propagates.  But when the termination signal of `stop_simulation`
fails with ProcessLookupError on `c8Run`, the run is encoded as completed
with an empty error message — not failed; and when it fails with any other
exception (for instance PermissionError), the exception propagates to the
caller instead of being encoded. -/
theorem C8_counterexample :
    stop_simulation c8Run KillOutcome.processLookupError "t1"
      = Except.ok { c8Run with
          status := SimulationStatus.completed, end_time := some "t1" }
    ∧ (stop_simulation c8Run KillOutcome.processLookupError "t1").toOption.map
        SimulationRun.status ≠ some SimulationStatus.failed
    ∧ (stop_simulation c8Run KillOutcome.processLookupError "t1").toOption.map
        SimulationRun.error_message = some ""
    ∧ stop_simulation c8Run (KillOutcome.otherError "PermissionError") "t2"
        = Except.error "PermissionError" := by
  refine ⟨rfl, by decide, rfl, rfl⟩

/-- C8 amended: any exception during spawn in `run_simulation` is caught
and encoded as a failed run with its error message set and no spawned
process — that path never propagates; in `stop_simulation` the only caught
termination-signal failure is the process-already-exited one, which is
encoded as a completed (not failed) run without touching the error
message, while any other termination-signal failure propagates to the
caller. -/
theorem C8_amended_process_failures (cfg : ControllerConfig) (s : Scenario)
    (rid : String) (args : List String) (msg now : String)
    (run : SimulationRun) (p : Nat) (hbin : cfg.afsim_binary ≠ "") :
    ((run_simulation cfg s rid args false true (SpawnOutcome.raised msg) now).run.status
        = SimulationStatus.failed
      ∧ (run_simulation cfg s rid args false true
          (SpawnOutcome.raised msg) now).run.error_message = msg
      ∧ (∀ cmd, RunEffect.spawnProcess cmd ∉
          (run_simulation cfg s rid args false true (SpawnOutcome.raised msg) now).effects))
    ∧ (run.status = SimulationStatus.running → run.pid = some p →
        stop_simulation run KillOutcome.processLookupError now
          = Except.ok { run with
              status := SimulationStatus.completed, end_time := some now })
    ∧ (run.status = SimulationStatus.running → run.pid = some p →
        stop_simulation run (KillOutcome.otherError msg) now
          = Except.error msg) := by
  have hcond : (false || (cfg.afsim_binary == "")) = false := by
    simp [hbin]
  refine ⟨?_, ?_, ?_⟩
  · refine ⟨?_, ?_, ?_⟩ <;> simp [run_simulation, hcond]
  · intro h1 h2
    simp [stop_simulation, h1, h2]
  · intro h1 h2
    simp [stop_simulation, h1, h2]

/-- C8 amended witness: a concrete failing spawn is encoded as failed with
its message; the concrete running run's stop encodes a ProcessLookupError
as completed and lets a PermissionError escape. -/
theorem C8_amended_process_failures_witness :
    (run_simulation c7Config c6Scenario "r" [] false true
        (SpawnOutcome.raised "boom") "t").run.status = SimulationStatus.failed
    ∧ (run_simulation c7Config c6Scenario "r" [] false true
        (SpawnOutcome.raised "boom") "t").run.error_message = "boom"
    ∧ stop_simulation c8Run KillOutcome.processLookupError "t"
        = Except.ok { c8Run with
            status := SimulationStatus.completed, end_time := some "t" }
    ∧ stop_simulation c8Run (KillOutcome.otherError "EPERM") "t"
        = Except.error "EPERM" :=
  ⟨(C8_amended_process_failures c7Config c6Scenario "r" [] "boom" "t" c8Run 42
      (by decide)).1.1,
   (C8_amended_process_failures c7Config c6Scenario "r" [] "boom" "t" c8Run 42
      (by decide)).1.2.1,
   (C8_amended_process_failures c7Config c6Scenario "r" [] "boom" "t" c8Run 42
      (by decide)).2.1 rfl rfl,
   (C8_amended_process_failures c7Config c6Scenario "r" [] "EPERM" "t" c8Run 42
      (by decide)).2.2 rfl rfl⟩


end AfsimMcp
